import Mathlib

set_option maxRecDepth 2000

/-!
Shallow embedding of the scenario compute engine of the hospital-network
repository (src/api/services.py, src/api/repositories.py, src/api/schemas.py).

Python floats are modelled as exact rationals (ℚ); Python `int(x)` is
truncation toward zero (`pyInt`); Python `round(x, n)` is round-half-to-even
at `n` decimal digits (`pyRound`).  The SQL tables behind the repository
layer are modelled as lists of rows in a `Database` record, and each
repository query as the corresponding filter / first-match over those lists
(the SQL `ORDER BY site_id` of the fetch queries leaves the relative order
of rows with equal keys unspecified, so the stored row order is one valid
instance).  The `metadata` dictionary of the HTTP response is transport
detail and is not modelled.
-/

/-- Python `int(x)` applied to a float: truncation toward zero. -/
def pyInt (q : ℚ) : ℤ := if 0 ≤ q then ⌊q⌋ else -⌊-q⌋

/-- Round to the nearest integer, ties to the even integer
(the rounding mode of Python `round`). -/
def roundHalfEven (q : ℚ) : ℤ :=
  if Int.fract q < 1/2 then ⌊q⌋
  else if 1/2 < Int.fract q then ⌊q⌋ + 1
  else if ⌊q⌋ % 2 = 0 then ⌊q⌋ else ⌊q⌋ + 1

/-- Python `round(q, n)`: round half to even at `n` decimal digits. -/
def pyRound (q : ℚ) (n : ℕ) : ℚ := (roundHalfEven (q * 10 ^ n) : ℚ) / 10 ^ n

/-- Python `x ** y` for a float base and integer exponent: repeated
multiplication, and the reciprocal for a negative exponent.  (For a zero base
and negative exponent Python raises; Lean's `0⁻¹ = 0` stands in, a case no
claim touches.)  `pyPow_eq_zpow` below checks this agrees with `zpow`. -/
def pyPow (q : ℚ) (y : ℤ) : ℚ :=
  if 0 ≤ y then q ^ y.toNat else (q ^ (-y).toNat)⁻¹

/-- Python truthiness of an `Optional[int]`: `None` and `0` are falsy. -/
def intTruthy : Option ℤ → Bool
  | none => false
  | some n => n != 0

/-- Python truthiness of an `Optional[float]`: `None` and `0.0` are falsy. -/
def qTruthy : Option ℚ → Bool
  | none => false
  | some x => x != 0

/-- A row of the `clinical_baseline` table joined with `dim_site`
(query `get_site_program_baseline`). -/
structure ClinicalBaselineRow where
  site_id : ℤ
  program_id : ℤ
  baseline_year : ℤ
  los_base_days : ℚ
  alc_rate : ℚ
  site_code : String
  site_name : String
  deriving DecidableEq

/-- A row of the `staffed_beds_schedule` table (query `get_site_staffed_beds`). -/
structure StaffedBedsRow where
  site_id : ℤ
  program_id : ℤ
  schedule_code : String
  staffed_beds : ℤ
  deriving DecidableEq

/-- A per-site aggregate produced by the `get_baseline_admissions` query
(GROUP BY over `ip_stays`; the grouping itself is out of the engine's scope,
only the resulting rows are consumed).  The SELECT filters on the program and
year in its WHERE clause but returns only `site_id` and the aggregates:
`program_id` and `year` here record the query's parameters so that the fetch
can be expressed as a filter; the service-side re-filter reads the missing
`program_id` column as `None` (see `admissions_for`). -/
structure AdmissionsRow where
  site_id : ℤ
  program_id : ℤ
  year : ℤ
  admissions_base : ℤ
  deriving DecidableEq

/-- A row of the `staffing_factors` table. -/
structure StaffingFactorRow where
  program_id : ℤ
  subprogram_id : Option ℤ
  hppd : ℚ
  annual_hours_per_fte : ℚ
  productivity_factor : ℚ
  deriving DecidableEq

/-- A row of the `seasonality_monthly` table. -/
structure SeasonalityRow where
  site_id : Option ℤ
  program_id : Option ℤ
  month : ℤ
  multiplier : ℚ
  deriving DecidableEq

/-- The reference tables read by the scenario repository. -/
structure Database where
  clinical_baseline : List ClinicalBaselineRow
  staffed_beds_schedule : List StaffedBedsRow
  ip_stays_admissions : List AdmissionsRow
  staffing_factors : List StaffingFactorRow
  seasonality_monthly : List SeasonalityRow
  deriving DecidableEq

/-- `ScenarioParams` of src/api/schemas.py. -/
structure ScenarioParams where
  occupancy_target : ℚ
  los_delta : ℚ
  alc_target : ℚ
  growth_pct : ℚ
  schedule_code : String
  seasonality : Bool
  deriving DecidableEq

/-- `ScenarioRequest` of src/api/schemas.py after the `ensure_program_ids`
normalization (the `program_ids` list is the one the service iterates). -/
structure ScenarioRequest where
  sites : List ℤ
  program_ids : List ℤ
  baseline_year : ℤ
  horizon_years : ℤ
  params : ScenarioParams
  deriving DecidableEq

/-- `SiteResult` of src/api/schemas.py. -/
structure SiteResult where
  site_id : ℤ
  site_code : String
  site_name : String
  admissions_projected : ℤ
  los_effective : ℚ
  patient_days : ℤ
  census_average : ℚ
  required_beds : ℤ
  staffed_beds : ℤ
  capacity_gap : ℤ
  nursing_fte : Option ℚ
  deriving DecidableEq

/-- `ScenarioKPIs` of src/api/schemas.py. -/
structure ScenarioKPIs where
  total_required_beds : ℤ
  total_staffed_beds : ℤ
  total_capacity_gap : ℤ
  total_nursing_fte : Option ℚ
  avg_occupancy : ℚ
  total_admissions : ℤ
  avg_los_effective : ℚ
  deriving DecidableEq

/-- `ScenarioResponse` of src/api/schemas.py (metadata omitted, see header). -/
structure ScenarioResponse where
  kpis : ScenarioKPIs
  by_site : List SiteResult
  deriving DecidableEq

/-- `ScenarioRepository.get_site_program_baseline`: clinical-baseline rows for
the requested sites, one program and the baseline year. -/
def get_site_program_baseline (db : Database) (sites : List ℤ) (pid year : ℤ) :
    List ClinicalBaselineRow :=
  db.clinical_baseline.filter
    (fun r => sites.contains r.site_id && r.program_id == pid && r.baseline_year == year)

/-- `ScenarioRepository.get_site_staffed_beds`: staffed-bed rows for the
requested sites, one program and a schedule code. -/
def get_site_staffed_beds (db : Database) (sites : List ℤ) (pid : ℤ) (schedule : String) :
    List StaffedBedsRow :=
  db.staffed_beds_schedule.filter
    (fun r => sites.contains r.site_id && r.program_id == pid && r.schedule_code == schedule)

/-- `ScenarioRepository.get_baseline_admissions`: historical admission
aggregates for the requested sites, one program and year. -/
def get_baseline_admissions (db : Database) (sites : List ℤ) (pid year : ℤ) :
    List AdmissionsRow :=
  db.ip_stays_admissions.filter
    (fun r => sites.contains r.site_id && r.program_id == pid && r.year == year)

/-- `ScenarioRepository.get_staffing_factor`: first `staffing_factors` row for
the program with `subprogram_id IS NULL` (SQL `LIMIT 1`). -/
def get_staffing_factor (db : Database) (pid : ℤ) : Option StaffingFactorRow :=
  db.staffing_factors.find? (fun r => r.program_id == pid && r.subprogram_id.isNone)

/-- `ScenarioRepository.get_seasonality_multiplier`: three-tier fallback.
The Python guards are `if site_id and program_id:` and `if program_id:`,
i.e. truthiness tests, so a `0` identifier skips its tier exactly like
`None` does. -/
def get_seasonality_multiplier (db : Database)
    (site_id program_id : Option ℤ) (month : ℤ) : ℚ :=
  match (if intTruthy site_id && intTruthy program_id then
      db.seasonality_monthly.find?
        (fun r => r.site_id == site_id && r.program_id == program_id && r.month == month)
    else none) with
  | some r => r.multiplier
  | none =>
    match (if intTruthy program_id then
        db.seasonality_monthly.find?
          (fun r => r.site_id.isNone && r.program_id == program_id && r.month == month)
      else none) with
    | some r => r.multiplier
    | none =>
      match db.seasonality_monthly.find?
          (fun r => r.site_id.isNone && r.program_id.isNone && r.month == month) with
      | some r => r.multiplier
      | none => 1

/-- `ScenarioService._get_average_seasonality`: mean of the twelve monthly
multipliers for a (site, program). -/
def get_average_seasonality (db : Database) (site_id program_id : ℤ) : ℚ :=
  (((List.range 12).map
    (fun m => get_seasonality_multiplier db (some site_id) (some program_id) ((m : ℤ) + 1))).sum) / 12

/-- Line 171 of src/api/services.py:
`admissions_projected = int(baseline_admissions * ((1 + g) ** y))`. -/
def admissions_projection (A : ℤ) (g : ℚ) (y : ℤ) : ℤ :=
  pyInt ((A : ℚ) * pyPow (1 + g) y)

/-- `ScenarioService._calculate_site_result`: the single (site, program)
projection.  Returns `none` when the baseline row or the staffed-beds row for
the site is missing. -/
def calculate_site_result (db : Database) (params : ScenarioParams) (horizon_years : ℤ)
    (baselines : List ClinicalBaselineRow) (staffed : List StaffedBedsRow)
    (historical : List AdmissionsRow) (staffing_factor : Option StaffingFactorRow)
    (site_id program_id : ℤ) : Option SiteResult :=
  match baselines.find? (fun b => b.site_id == site_id) with
  | none => none
  | some site_baseline =>
    match staffed.find? (fun s => s.site_id == site_id) with
    | none => none
    | some site_beds =>
      let baseline_admissions : ℤ :=
        match historical.find? (fun a => a.site_id == site_id) with
        | some a => a.admissions_base
        | none => 100
      let g := params.growth_pct
      let d := params.los_delta
      let occ_t := params.occupancy_target
      let alc_t := params.alc_target
      let alc_b := site_baseline.alc_rate
      let los_b := site_baseline.los_base_days
      let admissions_projected := admissions_projection baseline_admissions g horizon_years
      let los_acute := los_b * (1 + d)
      let los_effective := max (1/4 : ℚ) (los_acute * (1 + (alc_t - alc_b)))
      let seasonality_factor : ℚ :=
        if params.seasonality then get_average_seasonality db site_id program_id else 1
      let patient_days := pyInt ((admissions_projected : ℚ) * los_effective * seasonality_factor)
      let census_average : ℚ := (patient_days : ℚ) / 365
      let required_beds : ℤ := if 0 < occ_t then ⌈census_average / occ_t⌉ else 0
      let nursing_fte : Option ℚ :=
        match staffing_factor with
        | none => none
        | some f =>
          if 0 < f.annual_hours_per_fte * f.productivity_factor then
            some (pyRound (((required_beds : ℚ) * f.hppd * 365) /
              (f.annual_hours_per_fte * f.productivity_factor)) 1)
          else none
      some { site_id := site_id
             site_code := site_baseline.site_code
             site_name := site_baseline.site_name
             admissions_projected := admissions_projected
             los_effective := pyRound los_effective 2
             patient_days := patient_days
             census_average := pyRound census_average 1
             required_beds := required_beds
             staffed_beds := site_beds.staffed_beds
             capacity_gap := required_beds - site_beds.staffed_beds
             nursing_fte := nursing_fte }

/-- The concatenated baseline fetch of `calculate_scenario` (one
`get_site_program_baseline` call per requested program, extended in order). -/
def all_baselines (db : Database) (req : ScenarioRequest) : List ClinicalBaselineRow :=
  req.program_ids.flatMap (fun pid => get_site_program_baseline db req.sites pid req.baseline_year)

/-- The concatenated staffed-beds fetch of `calculate_scenario`. -/
def all_staffed (db : Database) (req : ScenarioRequest) : List StaffedBedsRow :=
  req.program_ids.flatMap
    (fun pid => get_site_staffed_beds db req.sites pid req.params.schedule_code)

/-- The concatenated historical-admissions fetch of `calculate_scenario`. -/
def all_admissions (db : Database) (req : ScenarioRequest) : List AdmissionsRow :=
  req.program_ids.flatMap (fun pid => get_baseline_admissions db req.sites pid req.baseline_year)

/-- The per-(site, program) row filters of the inner loop of
`calculate_scenario` (lines 64-66 of src/api/services.py). -/
def baselines_for (db : Database) (req : ScenarioRequest) (sid pid : ℤ) :
    List ClinicalBaselineRow :=
  (all_baselines db req).filter (fun x => x.site_id == sid && x.program_id == pid)

/-- Staffed-beds rows filtered for one (site, program). -/
def staffed_for (db : Database) (req : ScenarioRequest) (sid pid : ℤ) : List StaffedBedsRow :=
  (all_staffed db req).filter (fun x => x.site_id == sid && x.program_id == pid)

/-- Historical-admissions rows filtered for one (site, program).  Line 66 of
src/api/services.py filters with `x.get('program_id') == pid`, but the
`get_baseline_admissions` SELECT returns no `program_id` column, so the `get`
yields `None` for every row and the comparison with the integer program id is
always false: the filtered list is always empty, and the fallback
`baseline_admissions = 100` always applies in the service pipeline. -/
def admissions_for (db : Database) (req : ScenarioRequest) (sid pid : ℤ) : List AdmissionsRow :=
  (all_admissions db req).filter
    (fun x => x.site_id == sid && (none : Option ℤ) == some pid)

/-- The `per_program_results` list of the inner loop of `calculate_scenario`:
one optional result per requested program, `None`s dropped.  The
`staffing_factors` dictionary holds exactly the programs whose repository
lookup returned a (truthy) row, so `staffing_factors.get(pid)` equals the
direct lookup. -/
def per_program_results (db : Database) (req : ScenarioRequest) (sid : ℤ) : List SiteResult :=
  req.program_ids.filterMap (fun pid =>
    calculate_site_result db req.params req.horizon_years
      (baselines_for db req sid pid) (staffed_for db req sid pid)
      (admissions_for db req sid pid) (get_staffing_factor db pid) sid pid)

/-- The FTE value a per-program result contributes to `site_total_fte`:
line 85 of src/api/services.py is `if site_res.nursing_fte:`, a truthiness
test, so `None` and `0.0` contribute nothing. -/
def truthy_fte_value (r : SiteResult) : Option ℚ :=
  match r.nursing_fte with
  | some x => if x == 0 then none else some x
  | none => none

/-- The per-site aggregation across programs (lines 89-104 of
src/api/services.py): `None` when no program produced a result, otherwise
sums of the integer fields, the simple mean of the (rounded) per-program
`los_effective` values, and the FTE sum guarded by `fte_count > 0`. -/
def site_aggregate (db : Database) (req : ScenarioRequest) (sid : ℤ) : Option SiteResult :=
  match per_program_results db req sid with
  | [] => none
  | r0 :: rest =>
    let rs := r0 :: rest
    some { site_id := sid
           site_code := r0.site_code
           site_name := r0.site_name
           admissions_projected := (rs.map (fun r => r.admissions_projected)).sum
           los_effective :=
             pyRound ((rs.map (fun r => r.los_effective)).sum / (rs.length : ℚ)) 2
           patient_days := (rs.map (fun r => r.patient_days)).sum
           census_average := pyRound (((rs.map (fun r => r.patient_days)).sum : ℚ) / 365) 1
           required_beds := (rs.map (fun r => r.required_beds)).sum
           staffed_beds := (rs.map (fun r => r.staffed_beds)).sum
           capacity_gap :=
             (rs.map (fun r => r.required_beds)).sum - (rs.map (fun r => r.staffed_beds)).sum
           nursing_fte :=
             if 0 < (rs.filter (fun r => qTruthy r.nursing_fte)).length then
               some (pyRound ((rs.filterMap truthy_fte_value).sum) 1)
             else none }

/-- The programs stored in the `staffing_factors` dictionary of
`calculate_scenario` (lines 41-43: `if sf: staffing_factors[pid] = sf`). -/
def staffing_factors_found (db : Database) (req : ScenarioRequest) : List ℤ :=
  req.program_ids.filter (fun pid => (get_staffing_factor db pid).isSome)

/-- Lines 111-112 of src/api/services.py:
`if aggregated.nursing_fte: overall_total_fte = (overall_total_fte or 0) + aggregated.nursing_fte`. -/
def add_site_fte (acc : Option ℚ) (r : SiteResult) : Option ℚ :=
  if qTruthy r.nursing_fte then some (acc.getD 0 + r.nursing_fte.getD 0) else acc

/-- The running state of the site loop of `calculate_scenario`. -/
structure ScenAcc where
  site_results : List SiteResult
  total_required_beds : ℤ
  total_staffed_beds : ℤ
  total_admissions : ℤ
  total_patient_days : ℤ
  overall_total_fte : Option ℚ
  deriving DecidableEq

/-- One iteration of the site loop of `calculate_scenario` (lines 53-112):
a site that aggregates to nothing is skipped (`continue`), otherwise the
aggregated result is appended and every running total updated. -/
def step_site (db : Database) (req : ScenarioRequest) (acc : ScenAcc) (sid : ℤ) : ScenAcc :=
  match site_aggregate db req sid with
  | none => acc
  | some aggregated =>
    { site_results := acc.site_results ++ [aggregated]
      total_required_beds := acc.total_required_beds + aggregated.required_beds
      total_staffed_beds := acc.total_staffed_beds + aggregated.staffed_beds
      total_admissions := acc.total_admissions + aggregated.admissions_projected
      total_patient_days := acc.total_patient_days + aggregated.patient_days
      overall_total_fte := add_site_fte acc.overall_total_fte aggregated }

/-- `ScenarioService.calculate_scenario`: runs the site loop from the initial
state (`overall_total_fte = 0.0 if staffing_factors else None`, line 51) and
assembles the KPI record. -/
def calculate_scenario (db : Database) (req : ScenarioRequest) : ScenarioResponse :=
  let init : ScenAcc :=
    { site_results := []
      total_required_beds := 0
      total_staffed_beds := 0
      total_admissions := 0
      total_patient_days := 0
      overall_total_fte := if (staffing_factors_found db req).isEmpty then none else some 0 }
  let acc := req.sites.foldl (step_site db req) init
  let avg_occupancy : ℚ :=
    if 0 < acc.total_staffed_beds then
      (acc.total_patient_days : ℚ) / ((acc.total_staffed_beds : ℚ) * 365)
    else 0
  let avg_los_effective : ℚ :=
    if 0 < acc.total_admissions then
      (acc.total_patient_days : ℚ) / (acc.total_admissions : ℚ)
    else 0
  { kpis := { total_required_beds := acc.total_required_beds
              total_staffed_beds := acc.total_staffed_beds
              total_capacity_gap := acc.total_required_beds - acc.total_staffed_beds
              total_nursing_fte := acc.overall_total_fte
              avg_occupancy := pyRound avg_occupancy 3
              total_admissions := acc.total_admissions
              avg_los_effective := pyRound avg_los_effective 2 }
    by_site := acc.site_results }

/-- The pre-rounding effective length of stay of a single (site, program)
projection, exactly the internal `los_effective` of
`_calculate_site_result` before `round(los_effective, 2)` is applied
(steps 2-4 of the spec's algorithm). -/
def los_effective_unrounded (p : ScenarioParams) (b : ClinicalBaselineRow) : ℚ :=
  max (1/4 : ℚ) (b.los_base_days * (1 + p.los_delta) * (1 + (p.alc_target - b.alc_rate)))

/-- The unrounded per-program `los_effective` values of the programs that
produce a result for a site (those whose baseline row and staffed-beds row
are found).  This is the quantity the spec's aggregation sentence refers to;
`per_program_los_map` relates it to the rounded values the code stores. -/
def per_program_los_unrounded (db : Database) (req : ScenarioRequest) (sid : ℤ) : List ℚ :=
  req.program_ids.filterMap (fun pid =>
    match (baselines_for db req sid pid).find? (fun b => b.site_id == sid),
          (staffed_for db req sid pid).find? (fun s => s.site_id == sid) with
    | some b, some _ => some (los_effective_unrounded req.params b)
    | _, _ => none)

/-- The site-level figure the spec's sentence describes: round to 2 decimals
the simple mean of the unrounded per-program values. -/
def site_los_from_unrounded (db : Database) (req : ScenarioRequest) (sid : ℤ) : ℚ :=
  pyRound ((per_program_los_unrounded db req sid).sum /
    ((per_program_los_unrounded db req sid).length : ℚ)) 2

/-- The spec's worked example: scenario parameters with
`occupancy_target=0.90, los_delta=-0.03, alc_target=0.12, growth_pct=0.02,
seasonality=false`. -/
def exParams : ScenarioParams :=
  { occupancy_target := 9/10, los_delta := -3/100, alc_target := 3/25,
    growth_pct := 1/50, schedule_code := "Sched-A", seasonality := false }

/-- The spec's worked example: baseline `los_base_days=5.8, alc_rate=0.12`. -/
def exBaseline : ClinicalBaselineRow :=
  { site_id := 1, program_id := 1, baseline_year := 2022,
    los_base_days := 29/5, alc_rate := 3/25, site_code := "S1", site_name := "Site One" }

/-- The spec's worked example: 69 staffed beds. -/
def exBeds : StaffedBedsRow :=
  { site_id := 1, program_id := 1, schedule_code := "Sched-A", staffed_beds := 69 }

/-- The spec's worked example: historical admissions 100. -/
def exAdmissions : AdmissionsRow :=
  { site_id := 1, program_id := 1, year := 2022, admissions_base := 100 }

/-- The spec's worked example: staffing factor `hppd=6.5,
annual_hours_per_fte=1950, productivity_factor=0.90`. -/
def exFactor : StaffingFactorRow :=
  { program_id := 1, subprogram_id := none, hppd := 13/2,
    annual_hours_per_fte := 1950, productivity_factor := 9/10 }

/-- A one-site, one-program database holding the worked example's rows. -/
def exDb : Database :=
  { clinical_baseline := [exBaseline], staffed_beds_schedule := [exBeds],
    ip_stays_admissions := [exAdmissions], staffing_factors := [exFactor],
    seasonality_monthly := [] }

/-- The worked example's request: site 1, program 1, horizon 3 years. -/
def exReq : ScenarioRequest :=
  { sites := [1], program_ids := [1], baseline_year := 2022, horizon_years := 3,
    params := exParams }

/-- The worked example's single (site, program) result. -/
def exR1 : SiteResult :=
  { site_id := 1, site_code := "S1", site_name := "Site One",
    admissions_projected := 106, los_effective := 563/100, patient_days := 596,
    census_average := 8/5, required_beds := 2, staffed_beds := 69,
    capacity_gap := -67, nursing_fte := some (27/10) }

/-- The worked example's request with site 1 listed twice. -/
def exReqDup : ScenarioRequest :=
  { sites := [1, 1], program_ids := [1], baseline_year := 2022, horizon_years := 3,
    params := exParams }

/-- Parameters that shrink projected admissions to zero within the schema's
bounds: 20 percent annual decline over a 21-year horizon. -/
def exParamsZero : ScenarioParams :=
  { occupancy_target := 9/10, los_delta := 0, alc_target := 3/25,
    growth_pct := -1/5, schedule_code := "Sched-A", seasonality := false }

/-- Request against `exDb` whose projection truncates to zero admissions,
hence zero required beds and a per-program nursing FTE of exactly 0.0. -/
def exReqZero : ScenarioRequest :=
  { sites := [1], program_ids := [1], baseline_year := 2022, horizon_years := 21,
    params := exParamsZero }

/-- Parameters for the rounding-order scenario: no LOS or ALC adjustment, no
growth, so each program's effective LOS equals its baseline LOS exactly. -/
def exParamsR : ScenarioParams :=
  { occupancy_target := 9/10, los_delta := 0, alc_target := 0,
    growth_pct := 0, schedule_code := "Sched-A", seasonality := false }

/-- Baseline for program 1: LOS 1.0149 days (rounds to 1.01). -/
def exBaselineR1 : ClinicalBaselineRow :=
  { site_id := 1, program_id := 1, baseline_year := 2022,
    los_base_days := 10149/10000, alc_rate := 0, site_code := "S1", site_name := "Site One" }

/-- Baseline for program 2: LOS 1.0049 days (rounds to 1.00). -/
def exBaselineR2 : ClinicalBaselineRow :=
  { site_id := 1, program_id := 2, baseline_year := 2022,
    los_base_days := 10049/10000, alc_rate := 0, site_code := "S1", site_name := "Site One" }

/-- Staffed beds for program 1 of the rounding-order scenario. -/
def exBedsR1 : StaffedBedsRow :=
  { site_id := 1, program_id := 1, schedule_code := "Sched-A", staffed_beds := 10 }

/-- Staffed beds for program 2 of the rounding-order scenario. -/
def exBedsR2 : StaffedBedsRow :=
  { site_id := 1, program_id := 2, schedule_code := "Sched-A", staffed_beds := 10 }

/-- Two-program database where rounding before versus after averaging gives
different site-level LOS figures. -/
def exDbR : Database :=
  { clinical_baseline := [exBaselineR1, exBaselineR2],
    staffed_beds_schedule := [exBedsR1, exBedsR2],
    ip_stays_admissions := [], staffing_factors := [], seasonality_monthly := [] }

/-- Two-program request for the rounding-order scenario. -/
def exReqR : ScenarioRequest :=
  { sites := [1], program_ids := [1, 2], baseline_year := 2022, horizon_years := 3,
    params := exParamsR }

/-- A seasonality row keyed to site 0: a legitimate non-null key that the
lookup's truthiness guard treats as absent. -/
def exSeasonRowZero : SeasonalityRow :=
  { site_id := some 0, program_id := some 1, month := 1, multiplier := 21/20 }

/-- Database whose only seasonality row is the site-0 exact-tier row. -/
def exDbSeasonZero : Database :=
  { clinical_baseline := [], staffed_beds_schedule := [], ip_stays_admissions := [],
    staffing_factors := [], seasonality_monthly := [exSeasonRowZero] }

/-- A global-tier seasonality row (both keys null). -/
def exSeasonRowGlobal : SeasonalityRow :=
  { site_id := none, program_id := none, month := 3, multiplier := 11/10 }

/-- Database whose only seasonality row is the global-tier row. -/
def exDbSeasonGlobal : Database :=
  { clinical_baseline := [], staffed_beds_schedule := [], ip_stays_admissions := [],
    staffing_factors := [], seasonality_monthly := [exSeasonRowGlobal] }

/-- The site aggregate of the zero-admissions request: the per-program FTE
of exactly 0.0 is dropped by the truthiness test, so the site-level FTE is
absent. -/
def exRZero : SiteResult :=
  { site_id := 1, site_code := "S1", site_name := "Site One",
    admissions_projected := 0, los_effective := 29/5, patient_days := 0,
    census_average := 0, required_beds := 0, staffed_beds := 69,
    capacity_gap := -69, nursing_fte := none }

/-- The site aggregate of the two-program rounding-order scenario: the two
stored per-program LOS values 1.01 and 1.00 average to 1.005, which rounds
to 1.00. -/
def exAggR : SiteResult :=
  { site_id := 1, site_code := "S1", site_name := "Site One",
    admissions_projected := 200, los_effective := 1, patient_days := 201,
    census_average := 3/5, required_beds := 2, staffed_beds := 20,
    capacity_gap := -18, nursing_fte := none }

lemma fract_eq (q : ℚ) : Int.fract q = q - ⌊q⌋ := rfl

/-- Half-even rounding moves a value down by at most one half. -/
lemma roundHalfEven_half_le (q : ℚ) : q - 1/2 ≤ (roundHalfEven q : ℚ) := by
  have hfl : (⌊q⌋ : ℚ) ≤ q := Int.floor_le q
  have hlt : q < (⌊q⌋ : ℚ) + 1 := Int.lt_floor_add_one q
  unfold roundHalfEven
  split_ifs with h1 h2 h3
  · rw [fract_eq] at h1
    linarith
  · push_cast
    linarith
  · rw [fract_eq] at h1 h2
    linarith
  · push_cast
    linarith

/-- Rounding to two decimals preserves the 0.25 lower bound. -/
lemma quarter_le_pyRound (q : ℚ) (h : 1/4 ≤ q) : 1/4 ≤ pyRound q 2 := by
  unfold pyRound
  have e : (10 : ℚ) ^ 2 = 100 := by norm_num
  rw [e]
  have h1 : (25 : ℚ) ≤ q * 100 := by linarith
  have h2 := roundHalfEven_half_le (q * 100)
  have h3 : (24 : ℚ) < (roundHalfEven (q * 100) : ℚ) := by linarith
  have h4 : (24 : ℤ) < roundHalfEven (q * 100) := by exact_mod_cast h3
  have h5 : (25 : ℚ) ≤ (roundHalfEven (q * 100) : ℚ) := by exact_mod_cast h4
  rw [le_div_iff₀ (by norm_num : (0:ℚ) < 100)]
  linarith

lemma mul_length_le_sum (c : ℚ) :
    ∀ l : List ℚ, (∀ x ∈ l, c ≤ x) → c * l.length ≤ l.sum := by
  intro l
  induction l with
  | nil => simp
  | cons a t ih =>
    intro h
    have ha := h a (by simp)
    have ht := ih (fun x hx => h x (by simp [hx]))
    simp only [List.sum_cons, List.length_cons]
    push_cast
    linarith

lemma quarter_le_mean (l : List ℚ) (hne : l ≠ []) (h : ∀ x ∈ l, 1/4 ≤ x) :
    1/4 ≤ l.sum / (l.length : ℚ) := by
  have hlen : 0 < (l.length : ℚ) := by
    have := List.length_pos.mpr hne
    exact_mod_cast this
  rw [le_div_iff₀ hlen]
  have := mul_length_le_sum (1/4) l h
  linarith

/-- Truncation toward zero is monotone on the nonnegative rationals. -/
lemma pyInt_mono (a b : ℚ) (h0 : 0 ≤ a) (hab : a ≤ b) : pyInt a ≤ pyInt b := by
  unfold pyInt
  rw [if_pos h0, if_pos (h0.trans hab)]
  exact Int.floor_le_floor hab

/-- The explicit Python power agrees with Mathlib's integer power. -/
lemma pyPow_eq_zpow (q : ℚ) (y : ℤ) : pyPow q y = q ^ y := by
  unfold pyPow
  split_ifs with h
  · rw [← zpow_natCast, Int.toNat_of_nonneg h]
  · rw [← zpow_natCast, Int.toNat_of_nonneg (by omega : (0:ℤ) ≤ -y), zpow_neg, inv_inv]

/-- The emitted per-site results of the site loop. -/
lemma foldl_step_site (db : Database) (req : ScenarioRequest) (sites : List ℤ) :
    ∀ acc : ScenAcc,
      sites.foldl (step_site db req) acc =
        { site_results := acc.site_results ++ sites.filterMap (site_aggregate db req)
          total_required_beds := acc.total_required_beds +
            ((sites.filterMap (site_aggregate db req)).map (fun r => r.required_beds)).sum
          total_staffed_beds := acc.total_staffed_beds +
            ((sites.filterMap (site_aggregate db req)).map (fun r => r.staffed_beds)).sum
          total_admissions := acc.total_admissions +
            ((sites.filterMap (site_aggregate db req)).map (fun r => r.admissions_projected)).sum
          total_patient_days := acc.total_patient_days +
            ((sites.filterMap (site_aggregate db req)).map (fun r => r.patient_days)).sum
          overall_total_fte :=
            (sites.filterMap (site_aggregate db req)).foldl add_site_fte acc.overall_total_fte } := by
  induction sites with
  | nil => intro acc; simp
  | cons s rest ih =>
    intro acc
    rw [List.foldl_cons]
    cases h : site_aggregate db req s with
    | none =>
      have hs : step_site db req acc s = acc := by simp [step_site, h]
      rw [hs, ih acc, List.filterMap_cons_none h]
    | some r =>
      rw [ih (step_site db req acc s), List.filterMap_cons_some h]
      simp only [step_site, h, List.foldl_cons, List.map_cons, List.sum_cons]
      simp only [ScenAcc.mk.injEq]
      exact ⟨by simp, by omega, by omega, by omega, by omega, trivial⟩

/-- The whole response, written in terms of the list of emitted site results
(`req.sites.filterMap (site_aggregate db req)`). -/
lemma calculate_scenario_eq (db : Database) (req : ScenarioRequest) :
    calculate_scenario db req =
      { kpis := { total_required_beds :=
                    ((req.sites.filterMap (site_aggregate db req)).map
                      (fun r => r.required_beds)).sum
                  total_staffed_beds :=
                    ((req.sites.filterMap (site_aggregate db req)).map
                      (fun r => r.staffed_beds)).sum
                  total_capacity_gap :=
                    ((req.sites.filterMap (site_aggregate db req)).map
                      (fun r => r.required_beds)).sum -
                    ((req.sites.filterMap (site_aggregate db req)).map
                      (fun r => r.staffed_beds)).sum
                  total_nursing_fte :=
                    (req.sites.filterMap (site_aggregate db req)).foldl add_site_fte
                      (if (staffing_factors_found db req).isEmpty then none else some 0)
                  avg_occupancy :=
                    pyRound (if 0 < ((req.sites.filterMap (site_aggregate db req)).map
                        (fun r => r.staffed_beds)).sum then
                      (((((req.sites.filterMap (site_aggregate db req)).map
                          (fun r => r.patient_days)).sum : ℤ) : ℚ)) /
                        (((((req.sites.filterMap (site_aggregate db req)).map
                          (fun r => r.staffed_beds)).sum : ℤ) : ℚ) * 365)
                    else 0) 3
                  total_admissions :=
                    ((req.sites.filterMap (site_aggregate db req)).map
                      (fun r => r.admissions_projected)).sum
                  avg_los_effective :=
                    pyRound (if 0 < ((req.sites.filterMap (site_aggregate db req)).map
                        (fun r => r.admissions_projected)).sum then
                      (((((req.sites.filterMap (site_aggregate db req)).map
                          (fun r => r.patient_days)).sum : ℤ) : ℚ)) /
                        ((((((req.sites.filterMap (site_aggregate db req)).map
                          (fun r => r.admissions_projected)).sum : ℤ) : ℚ)))
                    else 0) 2 }
        by_site := req.sites.filterMap (site_aggregate db req) } := by
  unfold calculate_scenario
  dsimp only
  rw [foldl_step_site]
  simp

/-- Emitted entries carry the identifier of the site they were computed for. -/
lemma site_aggregate_site_id (db : Database) (req : ScenarioRequest) (sid : ℤ)
    (r : SiteResult) (h : site_aggregate db req sid = some r) : r.site_id = sid := by
  unfold site_aggregate at h
  split at h
  · exact absurd h (by simp)
  · cases Option.some.inj h
    rfl

/-- A site aggregates to nothing exactly when no program produced a result. -/
lemma site_aggregate_eq_none_iff (db : Database) (req : ScenarioRequest) (sid : ℤ) :
    site_aggregate db req sid = none ↔ per_program_results db req sid = [] := by
  unfold site_aggregate
  split
  · simp_all
  · simp_all

/-- The site-level LOS figure is the rounded simple mean of the stored
per-program values. -/
lemma site_aggregate_los (db : Database) (req : ScenarioRequest) (sid : ℤ)
    (r : SiteResult) (h : site_aggregate db req sid = some r) :
    r.los_effective =
      pyRound (((per_program_results db req sid).map (fun x => x.los_effective)).sum /
        ((per_program_results db req sid).length : ℚ)) 2 := by
  unfold site_aggregate at h
  split at h
  · exact absurd h (by simp)
  · next r0 rest heq =>
    cases Option.some.inj h
    rw [heq]

/-- The site-level FTE is absent exactly when no per-program result carries a
truthy (nonzero) FTE value. -/
lemma site_aggregate_fte_none_iff (db : Database) (req : ScenarioRequest) (sid : ℤ)
    (r : SiteResult) (h : site_aggregate db req sid = some r) :
    (r.nursing_fte = none ↔
      ∀ x ∈ per_program_results db req sid, qTruthy x.nursing_fte = false) := by
  unfold site_aggregate at h
  split at h
  · exact absurd h (by simp)
  · next r0 rest heq =>
    cases Option.some.inj h
    rw [heq]
    constructor
    · intro hnone x hx
      by_contra hq
      have hmem : x ∈ (r0 :: rest).filter (fun y => qTruthy y.nursing_fte) :=
        List.mem_filter.mpr ⟨hx, by simpa using hq⟩
      have hpos : 0 < ((r0 :: rest).filter (fun y => qTruthy y.nursing_fte)).length :=
        List.length_pos.mpr (List.ne_nil_of_mem hmem)
      simp only [hpos, if_pos] at hnone
      exact Option.some_ne_none _ hnone
    · intro hall
      have hnil : (r0 :: rest).filter (fun y => qTruthy y.nursing_fte) = [] :=
        List.filter_eq_nil_iff.mpr (fun a ha => by simp [hall a ha])
      simp [hnil]

/-- A single (site, program) projection succeeds exactly when the baseline
row and the staffed-beds row are both found. -/
lemma calculate_site_result_isSome (db : Database) (p : ScenarioParams) (y : ℤ)
    (bs : List ClinicalBaselineRow) (sb : List StaffedBedsRow) (ha : List AdmissionsRow)
    (sf : Option StaffingFactorRow) (sid pid : ℤ) :
    (calculate_site_result db p y bs sb ha sf sid pid).isSome = true ↔
      ((bs.find? (fun x => x.site_id == sid)).isSome = true ∧
       (sb.find? (fun x => x.site_id == sid)).isSome = true) := by
  unfold calculate_site_result
  split
  · simp_all
  · split
    · simp_all
    · simp_all

/-- The stored per-program LOS is the rounding of the unrounded value
computed from the baseline row the projection found. -/
lemma calculate_site_result_los (db : Database) (p : ScenarioParams) (y : ℤ)
    (bs : List ClinicalBaselineRow) (sb : List StaffedBedsRow) (ha : List AdmissionsRow)
    (sf : Option StaffingFactorRow) (sid pid : ℤ) (r : SiteResult)
    (h : calculate_site_result db p y bs sb ha sf sid pid = some r) :
    ∃ b, bs.find? (fun x => x.site_id == sid) = some b ∧
      r.los_effective = pyRound (los_effective_unrounded p b) 2 := by
  unfold calculate_site_result at h
  split at h
  · exact absurd h (by simp)
  · next b hb =>
    split at h
    · exact absurd h (by simp)
    · next bed hbed =>
      refine ⟨b, hb, ?_⟩
      cases Option.some.inj h
      rfl

/-- Every stored per-program LOS respects the 0.25-day floor. -/
lemma calculate_site_result_los_quarter (db : Database) (p : ScenarioParams) (y : ℤ)
    (bs : List ClinicalBaselineRow) (sb : List StaffedBedsRow) (ha : List AdmissionsRow)
    (sf : Option StaffingFactorRow) (sid pid : ℤ) (r : SiteResult)
    (h : calculate_site_result db p y bs sb ha sf sid pid = some r) :
    1/4 ≤ r.los_effective := by
  obtain ⟨b, _, hl⟩ := calculate_site_result_los db p y bs sb ha sf sid pid r h
  rw [hl]
  exact quarter_le_pyRound _ (le_max_left _ _)

/-- The per-program nursing FTE is present exactly when a staffing factor was
found and its hours-times-productivity denominator is positive. -/
lemma calculate_site_result_fte_isSome (db : Database) (p : ScenarioParams) (y : ℤ)
    (bs : List ClinicalBaselineRow) (sb : List StaffedBedsRow) (ha : List AdmissionsRow)
    (sf : Option StaffingFactorRow) (sid pid : ℤ) (r : SiteResult)
    (h : calculate_site_result db p y bs sb ha sf sid pid = some r) :
    (r.nursing_fte.isSome = true ↔
      ∃ f, sf = some f ∧ 0 < f.annual_hours_per_fte * f.productivity_factor) := by
  unfold calculate_site_result at h
  split at h
  · exact absurd h (by simp)
  · split at h
    · exact absurd h (by simp)
    · cases Option.some.inj h
      cases sf with
      | none => simp
      | some f =>
        by_cases hd : 0 < f.annual_hours_per_fte * f.productivity_factor
        · simp [hd]
        · simp [hd]

/-- With no staffing factor the per-program FTE is absent. -/
lemma calculate_site_result_fte_none (db : Database) (p : ScenarioParams) (y : ℤ)
    (bs : List ClinicalBaselineRow) (sb : List StaffedBedsRow) (ha : List AdmissionsRow)
    (sid pid : ℤ) (r : SiteResult)
    (h : calculate_site_result db p y bs sb ha none sid pid = some r) :
    r.nursing_fte = none := by
  have := calculate_site_result_fte_isSome db p y bs sb ha none sid pid r h
  cases hr : r.nursing_fte with
  | none => rfl
  | some q =>
    exfalso
    have h1 : (r.nursing_fte.isSome = true) := by simp [hr]
    obtain ⟨f, hf, _⟩ := this.mp h1
    exact Option.noConfusion hf

/-- Membership in the per-program result list. -/
lemma mem_per_program_results (db : Database) (req : ScenarioRequest) (sid : ℤ)
    (x : SiteResult) :
    x ∈ per_program_results db req sid ↔
      ∃ pid ∈ req.program_ids,
        calculate_site_result db req.params req.horizon_years
          (baselines_for db req sid pid) (staffed_for db req sid pid)
          (admissions_for db req sid pid) (get_staffing_factor db pid) sid pid = some x := by
  unfold per_program_results
  simp [List.mem_filterMap]

/-- The stored per-program LOS values are exactly the unrounded values of
`per_program_los_unrounded`, each rounded to two decimals. -/
lemma per_program_los_map (db : Database) (req : ScenarioRequest) (sid : ℤ) :
    (per_program_results db req sid).map (fun r => r.los_effective) =
      (per_program_los_unrounded db req sid).map (fun x => pyRound x 2) := by
  unfold per_program_results per_program_los_unrounded
  rw [List.map_filterMap, List.map_filterMap]
  apply List.filterMap_congr
  intro pid _
  cases hb : (baselines_for db req sid pid).find? (fun b => b.site_id == sid) with
  | none =>
    unfold calculate_site_result
    simp [hb]
  | some b =>
    cases hs : (staffed_for db req sid pid).find? (fun s => s.site_id == sid) with
    | none =>
      unfold calculate_site_result
      simp [hb, hs]
    | some bed =>
      unfold calculate_site_result
      simp [hb, hs, los_effective_unrounded]

/-- Once the running FTE total is present it stays present. -/
lemma foldl_add_site_fte_isSome (l : List SiteResult) :
    ∀ q : ℚ, ((l.foldl add_site_fte (some q)).isSome = true) := by
  induction l with
  | nil => intro q; simp
  | cons r t ih =>
    intro q
    rw [List.foldl_cons]
    unfold add_site_fte
    split
    · exact ih _
    · exact ih q

/-- An absent running FTE total stays absent while no entry is truthy. -/
lemma foldl_add_site_fte_none (l : List SiteResult)
    (h : ∀ r ∈ l, qTruthy r.nursing_fte = false) :
    l.foldl add_site_fte none = none := by
  induction l with
  | nil => simp
  | cons r t ih =>
    rw [List.foldl_cons]
    unfold add_site_fte
    rw [h r (by simp)]
    simp only [Bool.false_eq_true, if_false]
    exact ih (fun x hx => h x (by simp [hx]))

/-- The emitted entries' site identifiers are the requested sites that
aggregate to something, in request order. -/
lemma emitted_map_site_id (db : Database) (req : ScenarioRequest) :
    ∀ sites : List ℤ,
      ((sites.filterMap (site_aggregate db req)).map (fun r => r.site_id)) =
        sites.filter (fun t => (site_aggregate db req t).isSome) := by
  intro sites
  induction sites with
  | nil => simp
  | cons s rest ih =>
    cases h : site_aggregate db req s with
    | none =>
      rw [List.filterMap_cons_none h, List.filter_cons]
      simp [h, ih]
    | some r =>
      rw [List.filterMap_cons_some h, List.filter_cons]
      simp [h, ih, site_aggregate_site_id db req s r h]

/-- A site that aggregates to something yields one emitted entry per
occurrence in the request list. -/
lemma emitted_count (db : Database) (req : ScenarioRequest) (s : ℤ)
    (hsome : (site_aggregate db req s).isSome = true) :
    ∀ sites : List ℤ,
      (((sites.filterMap (site_aggregate db req)).filter
        (fun r => r.site_id == s)).length) = sites.count s := by
  intro sites
  induction sites with
  | nil => simp
  | cons t rest ih =>
    cases h : site_aggregate db req t with
    | none =>
      have hts : s ≠ t := by
        rintro rfl
        rw [h] at hsome
        simp at hsome
      rw [List.filterMap_cons_none h, List.count_cons_of_ne hts]
      exact ih
    | some r =>
      have hrs : r.site_id = t := site_aggregate_site_id db req t r h
      rw [List.filterMap_cons_some h, List.filter_cons]
      by_cases hts : t = s
      · subst hts
        simp [hrs, ih]
      · have : s ≠ t := fun hh => hts hh.symm
        simp [hrs, hts, ih, List.count_cons_of_ne this]

/-- A site aggregates to something exactly when some requested program finds
both of its rows. -/
lemma site_aggregate_isSome_iff (db : Database) (req : ScenarioRequest) (s : ℤ) :
    (site_aggregate db req s).isSome = true ↔
      ∃ pid ∈ req.program_ids,
        ((baselines_for db req s pid).find? (fun x => x.site_id == s)).isSome = true ∧
        ((staffed_for db req s pid).find? (fun x => x.site_id == s)).isSome = true := by
  rw [Option.isSome_iff_ne_none, ne_eq, site_aggregate_eq_none_iff]
  unfold per_program_results
  rw [List.filterMap_eq_nil_iff]
  push_neg
  constructor
  · rintro ⟨pid, hp, hne⟩
    refine ⟨pid, hp, ?_⟩
    rw [← calculate_site_result_isSome db req.params req.horizon_years
      (baselines_for db req s pid) (staffed_for db req s pid)
      (admissions_for db req s pid) (get_staffing_factor db pid) s pid]
    exact Option.isSome_iff_ne_none.mpr hne
  · rintro ⟨pid, hp, hfinds⟩
    refine ⟨pid, hp, ?_⟩
    apply Option.isSome_iff_ne_none.mp
    rw [calculate_site_result_isSome db req.params req.horizon_years
      (baselines_for db req s pid) (staffed_for db req s pid)
      (admissions_for db req s pid) (get_staffing_factor db pid) s pid]
    exact hfinds

/-- An entry for a requested site appears in the output exactly when the site
aggregates to something. -/
lemma site_emitted_iff (db : Database) (req : ScenarioRequest) (s : ℤ)
    (hs : s ∈ req.sites) :
    (∃ r ∈ (calculate_scenario db req).by_site, r.site_id = s) ↔
      (site_aggregate db req s).isSome = true := by
  rw [calculate_scenario_eq]
  constructor
  · rintro ⟨r, hr, hrs⟩
    obtain ⟨t, _, hsome⟩ := List.mem_filterMap.mp hr
    have ht := site_aggregate_site_id db req t r hsome
    rw [hrs] at ht
    subst ht
    rw [hsome]
    rfl
  · intro hsome
    obtain ⟨r, hr⟩ := Option.isSome_iff_exists.mp hsome
    exact ⟨r, List.mem_filterMap.mpr ⟨s, hs, hr⟩, site_aggregate_site_id db req s r hr⟩

/-- Finding a baseline row for (site, program) amounts to such a row existing
in the clinical-baseline table for the request's baseline year. -/
lemma baseline_find_isSome_iff (db : Database) (req : ScenarioRequest) (s pid : ℤ)
    (hs : s ∈ req.sites) (hp : pid ∈ req.program_ids) :
    ((baselines_for db req s pid).find? (fun x => x.site_id == s)).isSome = true ↔
      ∃ b ∈ db.clinical_baseline,
        b.site_id = s ∧ b.program_id = pid ∧ b.baseline_year = req.baseline_year := by
  rw [List.find?_isSome]
  unfold baselines_for all_baselines get_site_program_baseline
  simp only [List.mem_filter, List.mem_flatMap, Bool.and_eq_true, beq_iff_eq,
    List.elem_eq_mem, decide_eq_true_eq]
  constructor
  · rintro ⟨b, ⟨⟨pid2, hp2, hb, ⟨hc, hpid2⟩, hy⟩, hsid, hpid⟩, _⟩
    exact ⟨b, hb, hsid, hpid, hy⟩
  · rintro ⟨b, hb, hsid, hpid, hy⟩
    refine ⟨b, ⟨⟨pid, hp, hb, ⟨?_, hpid⟩, hy⟩, hsid, hpid⟩, hsid⟩
    rw [hsid]
    exact hs

/-- Finding a staffed-beds row for (site, program) amounts to such a row
existing in the staffed-beds table for the request's schedule code. -/
lemma staffed_find_isSome_iff (db : Database) (req : ScenarioRequest) (s pid : ℤ)
    (hs : s ∈ req.sites) (hp : pid ∈ req.program_ids) :
    ((staffed_for db req s pid).find? (fun x => x.site_id == s)).isSome = true ↔
      ∃ w ∈ db.staffed_beds_schedule,
        w.site_id = s ∧ w.program_id = pid ∧ w.schedule_code = req.params.schedule_code := by
  rw [List.find?_isSome]
  unfold staffed_for all_staffed get_site_staffed_beds
  simp only [List.mem_filter, List.mem_flatMap, Bool.and_eq_true, beq_iff_eq,
    List.elem_eq_mem, decide_eq_true_eq]
  constructor
  · rintro ⟨w, ⟨⟨pid2, hp2, hw, ⟨hc, hpid2⟩, hsched⟩, hsid, hpid⟩, _⟩
    exact ⟨w, hw, hsid, hpid, hsched⟩
  · rintro ⟨w, hw, hsid, hpid, hsched⟩
    refine ⟨w, ⟨⟨pid, hp, hw, ⟨?_, hpid⟩, hsched⟩, hsid, hpid⟩, hsid⟩
    rw [hsid]
    exact hs

lemma pyRound_zero (n : ℕ) : pyRound 0 n = 0 := by
  unfold pyRound roundHalfEven
  norm_num

lemma qTruthy_false_iff (o : Option ℚ) :
    qTruthy o = false ↔ ¬∃ q, o = some q ∧ q ≠ 0 := by
  cases o with
  | none => simp [qTruthy]
  | some x =>
    simp only [qTruthy, bne_eq_false_iff_eq, Option.some.injEq]
    constructor
    · rintro rfl ⟨q, rfl, hq⟩
      exact hq rfl
    · intro h
      by_contra hx
      exact h ⟨x, rfl, fun hh => hx hh⟩

/-- The staffing-factor dictionary is empty exactly when no requested
program has a (program-level) staffing factor row. -/
lemma staffing_factors_found_empty_iff (db : Database) (req : ScenarioRequest) :
    (staffing_factors_found db req).isEmpty = true ↔
      ∀ pid ∈ req.program_ids, get_staffing_factor db pid = none := by
  unfold staffing_factors_found
  rw [List.isEmpty_iff, List.filter_eq_nil_iff]
  constructor
  · intro h pid hp
    have := h pid hp
    simpa [Option.not_isSome_iff_eq_none] using this
  · intro h pid hp
    simp [h pid hp]

/-- Concrete evaluation of the worked example's whole response list. -/
lemma exScenario_by_site : (calculate_scenario exDb exReq).by_site = [exR1] := by
  have hA : site_aggregate exDb exReq 1 = some exR1 := by with_unfolding_all decide
  rw [calculate_scenario_eq]
  dsimp only
  rw [show exReq.sites = [1] from rfl, List.filterMap_cons_some hA, List.filterMap_nil]

/-- C1: for the spec's worked example (baseline LOS 5.8, ALC 0.12, 69
staffed beds, staffing factor 6.5/1950/0.90, 100 historical admissions,
occupancy 0.90, LOS delta -0.03, ALC target 0.12, growth 0.02, no
seasonality, horizon 3 years), the single (site, program) projection
produces admissions 106, effective LOS 5.63, 596 patient days, 2 required
beds, capacity gap -67 and nursing FTE 2.7. -/
theorem claim_C1 :
    ∃ r, calculate_site_result exDb exParams 3 [exBaseline] [exBeds] [exAdmissions]
        (some exFactor) 1 1 = some r ∧
      r.admissions_projected = 106 ∧ r.los_effective = 563/100 ∧ r.patient_days = 596 ∧
      r.required_beds = 2 ∧ r.capacity_gap = -67 ∧ r.nursing_fte = some (27/10) := by
  refine ⟨exR1, ?_, ?_, ?_, ?_, ?_, ?_, ?_⟩ <;> with_unfolding_all decide

/-- C5: the KPI bed totals are the sums of the emitted per-site figures, and
the total capacity gap is their difference. -/
theorem claim_C5 (db : Database) (req : ScenarioRequest) :
    (calculate_scenario db req).kpis.total_required_beds =
      ((calculate_scenario db req).by_site.map (fun r => r.required_beds)).sum ∧
    (calculate_scenario db req).kpis.total_staffed_beds =
      ((calculate_scenario db req).by_site.map (fun r => r.staffed_beds)).sum ∧
    (calculate_scenario db req).kpis.total_capacity_gap =
      (calculate_scenario db req).kpis.total_required_beds -
        (calculate_scenario db req).kpis.total_staffed_beds := by
  rw [calculate_scenario_eq]
  exact ⟨rfl, rfl, rfl⟩

/-- C9: the KPI average effective LOS is the patient-day total divided by the
admissions total over the emitted sites, rounded to two decimals, when the
admissions total is positive, and 0 otherwise; it is recomputed from
aggregate totals, not averaged from per-site values. -/
theorem claim_C9 (db : Database) (req : ScenarioRequest) :
    (calculate_scenario db req).kpis.avg_los_effective =
      if 0 < ((calculate_scenario db req).by_site.map (fun r => r.admissions_projected)).sum
      then
        pyRound ((((((calculate_scenario db req).by_site.map
            (fun r => r.patient_days)).sum : ℤ) : ℚ)) /
          (((((calculate_scenario db req).by_site.map
            (fun r => r.admissions_projected)).sum : ℤ) : ℚ))) 2
      else 0 := by
  rw [calculate_scenario_eq]
  dsimp only
  by_cases h :
      0 < ((req.sites.filterMap (site_aggregate db req)).map
        (fun r => r.admissions_projected)).sum
  · rw [if_pos h, if_pos h]
  · rw [if_neg h, if_neg h]
    exact pyRound_zero 2

/-- C6: every emitted site result has an effective LOS of at least 0.25
days, for any database and any request. -/
theorem claim_C6 (db : Database) (req : ScenarioRequest) (r : SiteResult)
    (h : r ∈ (calculate_scenario db req).by_site) : 1/4 ≤ r.los_effective := by
  rw [calculate_scenario_eq] at h
  obtain ⟨s, _, hsome⟩ := List.mem_filterMap.mp h
  have hlos := site_aggregate_los db req s r hsome
  have hne : per_program_results db req s ≠ [] := by
    intro hnil
    rw [← site_aggregate_eq_none_iff] at hnil
    rw [hnil] at hsome
    exact Option.noConfusion hsome
  rw [hlos, show ((per_program_results db req s).length : ℚ) =
      (((per_program_results db req s).map (fun x => x.los_effective)).length : ℚ) by
    rw [List.length_map]]
  apply quarter_le_pyRound
  apply quarter_le_mean
  · simpa using hne
  · intro x hx
    obtain ⟨pr, hpr, rfl⟩ := List.mem_map.mp hx
    obtain ⟨pid, _, hcalc⟩ := (mem_per_program_results db req s pr).mp hpr
    exact calculate_site_result_los_quarter db req.params req.horizon_years _ _ _ _ s pid pr hcalc

/-- C6 witness: the worked example emits a site result, and its effective
LOS (5.63) respects the floor. -/
theorem claim_C6_witness :
    exR1 ∈ (calculate_scenario exDb exReq).by_site ∧ (1/4 : ℚ) ≤ exR1.los_effective := by
  have hmem : exR1 ∈ (calculate_scenario exDb exReq).by_site := by
    rw [exScenario_by_site]
    simp
  exact ⟨hmem, claim_C6 exDb exReq exR1 hmem⟩

/-- C4: a requested site appears in the output exactly when at least one
requested program has both a clinical-baseline row (for the baseline year)
and a staffed-beds row (for the schedule code) at that site; otherwise the
site is dropped without error (the embedding is total). -/
theorem claim_C4 (db : Database) (req : ScenarioRequest) (s : ℤ) (hs : s ∈ req.sites) :
    (∃ r ∈ (calculate_scenario db req).by_site, r.site_id = s) ↔
      ∃ pid ∈ req.program_ids,
        (∃ b ∈ db.clinical_baseline,
          b.site_id = s ∧ b.program_id = pid ∧ b.baseline_year = req.baseline_year) ∧
        (∃ w ∈ db.staffed_beds_schedule,
          w.site_id = s ∧ w.program_id = pid ∧ w.schedule_code = req.params.schedule_code) := by
  rw [site_emitted_iff db req s hs, site_aggregate_isSome_iff]
  constructor
  · rintro ⟨pid, hp, h1, h2⟩
    exact ⟨pid, hp, (baseline_find_isSome_iff db req s pid hs hp).mp h1,
      (staffed_find_isSome_iff db req s pid hs hp).mp h2⟩
  · rintro ⟨pid, hp, h1, h2⟩
    exact ⟨pid, hp, (baseline_find_isSome_iff db req s pid hs hp).mpr h1,
      (staffed_find_isSome_iff db req s pid hs hp).mpr h2⟩

/-- C4 witness: the equivalence instantiated at the worked example's site 1. -/
theorem claim_C4_witness :
    (∃ r ∈ (calculate_scenario exDb exReq).by_site, r.site_id = 1) ↔
      ∃ pid ∈ exReq.program_ids,
        (∃ b ∈ exDb.clinical_baseline,
          b.site_id = 1 ∧ b.program_id = pid ∧ b.baseline_year = exReq.baseline_year) ∧
        (∃ w ∈ exDb.staffed_beds_schedule,
          w.site_id = 1 ∧ w.program_id = pid ∧ w.schedule_code = exReq.params.schedule_code) :=
  claim_C4 exDb exReq 1 (by with_unfolding_all decide)

/-- C2 counterexample: with baseline 100, horizon 1 and growth rates 0.001
versus 0.002, the projected admissions both truncate to 100, so increasing
`growth_pct` does not strictly increase `admissions_projected`. -/
theorem claim_C2_counterexample :
    (0 : ℤ) < 100 ∧ (0 : ℤ) < 1 ∧ (1/1000 : ℚ) < 2/1000 ∧
    admissions_projection 100 (1/1000) 1 = 100 ∧
    admissions_projection 100 (2/1000) 1 = 100 := by
  refine ⟨by norm_num, by norm_num, by norm_num, ?_, ?_⟩ <;> with_unfolding_all decide

/-- C2 amended: for positive baseline admissions, positive horizon and growth
rates at least -1, increasing `growth_pct` strictly increases the
pre-truncation projected admissions and weakly (not strictly) increases the
truncated `admissions_projected`. -/
theorem claim_C2_amended (A y : ℤ) (g1 g2 : ℚ) (hA : 0 < A) (hy : 0 < y)
    (h1 : -1 ≤ g1) (h12 : g1 < g2) :
    (A : ℚ) * pyPow (1 + g1) y < (A : ℚ) * pyPow (1 + g2) y ∧
    admissions_projection A g1 y ≤ admissions_projection A g2 y := by
  have hy0 : 0 ≤ y := le_of_lt hy
  have hn : y.toNat ≠ 0 := by omega
  have hb1 : (0:ℚ) ≤ 1 + g1 := by linarith
  have hb2 : (1 + g1 : ℚ) < 1 + g2 := by linarith
  have hpow : (1 + g1 : ℚ) ^ y.toNat < (1 + g2) ^ y.toNat := pow_lt_pow_left₀ hb2 hb1 hn
  have hApos : (0:ℚ) < (A:ℚ) := by exact_mod_cast hA
  have hlt : (A:ℚ) * pyPow (1 + g1) y < (A:ℚ) * pyPow (1 + g2) y := by
    unfold pyPow
    rw [if_pos hy0, if_pos hy0]
    exact mul_lt_mul_of_pos_left hpow hApos
  refine ⟨hlt, ?_⟩
  unfold admissions_projection
  apply pyInt_mono
  · unfold pyPow
    rw [if_pos hy0]
    exact mul_nonneg (le_of_lt hApos) (pow_nonneg hb1 _)
  · exact le_of_lt hlt

/-- C2 amended witness: baseline 100, horizon 2, growth 0 versus 0.1. -/
theorem claim_C2_amended_witness :
    ((100 : ℤ) : ℚ) * pyPow (1 + 0) 2 < ((100 : ℤ) : ℚ) * pyPow (1 + 1/10) 2 ∧
    admissions_projection 100 0 2 ≤ admissions_projection 100 (1/10) 2 :=
  claim_C2_amended 100 2 0 (1/10) (by norm_num) (by norm_num) (by norm_num) (by norm_num)

/-- C10: a requested site that aggregates to a result produces one output
entry per occurrence in the request's site list, the output lists sites in
request order, and each entry is counted again in every KPI total: the
required-beds, staffed-beds and admissions totals are plain sums over the
output list, the patient-day total entering `avg_occupancy` is the sum of
the entries' patient days, and the nursing-FTE total accumulates every
entry through the truthiness fold. -/
theorem claim_C10 (db : Database) (req : ScenarioRequest) (s : ℤ)
    (h : (site_aggregate db req s).isSome = true) :
    (((calculate_scenario db req).by_site.filter (fun r => r.site_id == s)).length =
      req.sites.count s) ∧
    ((calculate_scenario db req).by_site.map (fun r => r.site_id) =
      req.sites.filter (fun t => (site_aggregate db req t).isSome)) ∧
    ((calculate_scenario db req).kpis.total_required_beds =
      ((calculate_scenario db req).by_site.map (fun r => r.required_beds)).sum) ∧
    ((calculate_scenario db req).kpis.total_staffed_beds =
      ((calculate_scenario db req).by_site.map (fun r => r.staffed_beds)).sum) ∧
    ((calculate_scenario db req).kpis.total_admissions =
      ((calculate_scenario db req).by_site.map (fun r => r.admissions_projected)).sum) ∧
    ((calculate_scenario db req).kpis.avg_occupancy =
      pyRound (if 0 < ((calculate_scenario db req).by_site.map
          (fun r => r.staffed_beds)).sum then
        (((((calculate_scenario db req).by_site.map
            (fun r => r.patient_days)).sum : ℤ) : ℚ)) /
          ((((((calculate_scenario db req).by_site.map
            (fun r => r.staffed_beds)).sum : ℤ) : ℚ)) * 365)
      else 0) 3) ∧
    ((calculate_scenario db req).kpis.total_nursing_fte =
      (calculate_scenario db req).by_site.foldl add_site_fte
        (if (staffing_factors_found db req).isEmpty then none else some 0)) := by
  rw [calculate_scenario_eq]
  exact ⟨emitted_count db req s h req.sites, emitted_map_site_id db req req.sites,
    rfl, rfl, rfl, rfl, rfl⟩

/-- C10 witness: the worked example with site 1 requested twice. -/
theorem claim_C10_witness :
    (((calculate_scenario exDb exReqDup).by_site.filter
        (fun r => r.site_id == (1:ℤ))).length = exReqDup.sites.count 1) ∧
    ((calculate_scenario exDb exReqDup).by_site.map (fun r => r.site_id) =
      exReqDup.sites.filter (fun t => (site_aggregate exDb exReqDup t).isSome)) ∧
    ((calculate_scenario exDb exReqDup).kpis.total_required_beds =
      ((calculate_scenario exDb exReqDup).by_site.map (fun r => r.required_beds)).sum) ∧
    ((calculate_scenario exDb exReqDup).kpis.total_staffed_beds =
      ((calculate_scenario exDb exReqDup).by_site.map (fun r => r.staffed_beds)).sum) ∧
    ((calculate_scenario exDb exReqDup).kpis.total_admissions =
      ((calculate_scenario exDb exReqDup).by_site.map (fun r => r.admissions_projected)).sum) ∧
    ((calculate_scenario exDb exReqDup).kpis.avg_occupancy =
      pyRound (if 0 < ((calculate_scenario exDb exReqDup).by_site.map
          (fun r => r.staffed_beds)).sum then
        (((((calculate_scenario exDb exReqDup).by_site.map
            (fun r => r.patient_days)).sum : ℤ) : ℚ)) /
          ((((((calculate_scenario exDb exReqDup).by_site.map
            (fun r => r.staffed_beds)).sum : ℤ) : ℚ)) * 365)
      else 0) 3) ∧
    ((calculate_scenario exDb exReqDup).kpis.total_nursing_fte =
      (calculate_scenario exDb exReqDup).by_site.foldl add_site_fte
        (if (staffing_factors_found exDb exReqDup).isEmpty then none else some 0)) :=
  claim_C10 exDb exReqDup 1 (by with_unfolding_all decide)

/-- C3 counterexample: for the zero-admissions request the single program's
result carries `nursing_fte = 0.0` (present), yet the site-level FTE is
absent — and no site contributes an FTE, yet the aggregate total is 0.0
(present) because a staffing factor exists for the program. -/
theorem claim_C3_counterexample :
    ((per_program_results exDb exReqZero 1).map (fun r => r.nursing_fte) = [some 0]) ∧
    ((calculate_scenario exDb exReqZero).by_site.map (fun r => r.nursing_fte) = [none]) ∧
    ((calculate_scenario exDb exReqZero).kpis.total_nursing_fte = some 0) := by
  have hA : site_aggregate exDb exReqZero 1 = some exRZero := by with_unfolding_all decide
  refine ⟨by with_unfolding_all decide, ?_, ?_⟩
  · rw [calculate_scenario_eq]
    dsimp only
    rw [show exReqZero.sites = [1] from rfl, List.filterMap_cons_some hA, List.filterMap_nil]
    with_unfolding_all decide
  · rw [calculate_scenario_eq]
    dsimp only
    rw [show exReqZero.sites = [1] from rfl, List.filterMap_cons_some hA, List.filterMap_nil]
    with_unfolding_all decide

/-- C3 amended: a per-program FTE is present exactly when the program has a
staffing factor with a positive hours-times-productivity denominator; the
site-level FTE is absent exactly when no program contributed a *nonzero*
FTE value (a contributed 0.0 is dropped by the truthiness test); and the
aggregate total is absent exactly when no requested program has a staffing
factor at all (when one exists the total is present, possibly 0.0, even if
no site contributed). -/
theorem claim_C3_amended :
    (∀ (db : Database) (p : ScenarioParams) (y : ℤ) (bs : List ClinicalBaselineRow)
        (sb : List StaffedBedsRow) (ha : List AdmissionsRow)
        (sf : Option StaffingFactorRow) (sid pid : ℤ) (r : SiteResult),
      calculate_site_result db p y bs sb ha sf sid pid = some r →
        (r.nursing_fte.isSome = true ↔
          ∃ f, sf = some f ∧ 0 < f.annual_hours_per_fte * f.productivity_factor)) ∧
    (∀ (db : Database) (req : ScenarioRequest) (sid : ℤ) (r : SiteResult),
      site_aggregate db req sid = some r →
        (r.nursing_fte = none ↔
          ¬∃ x ∈ per_program_results db req sid, ∃ q, x.nursing_fte = some q ∧ q ≠ 0)) ∧
    (∀ (db : Database) (req : ScenarioRequest),
      ((calculate_scenario db req).kpis.total_nursing_fte = none ↔
        ∀ pid ∈ req.program_ids, get_staffing_factor db pid = none)) := by
  refine ⟨?_, ?_, ?_⟩
  · intro db p y bs sb ha sf sid pid r h
    exact calculate_site_result_fte_isSome db p y bs sb ha sf sid pid r h
  · intro db req sid r h
    rw [site_aggregate_fte_none_iff db req sid r h]
    constructor
    · intro hall
      rintro ⟨x, hx, hq⟩
      exact (qTruthy_false_iff x.nursing_fte).mp (hall x hx) hq
    · intro hnone x hx
      rw [qTruthy_false_iff]
      intro hq
      exact hnone ⟨x, hx, hq⟩
  · intro db req
    rw [calculate_scenario_eq]
    dsimp only
    by_cases hempty : (staffing_factors_found db req).isEmpty = true
    · have hnone := (staffing_factors_found_empty_iff db req).mp hempty
      rw [if_pos hempty]
      have hfte : ∀ r ∈ req.sites.filterMap (site_aggregate db req),
          qTruthy r.nursing_fte = false := by
        intro r hr
        obtain ⟨s, _, hsome⟩ := List.mem_filterMap.mp hr
        have : r.nursing_fte = none := by
          rw [site_aggregate_fte_none_iff db req s r hsome]
          intro x hx
          obtain ⟨pid, hpid, hcalc⟩ := (mem_per_program_results db req s x).mp hx
          rw [hnone pid hpid] at hcalc
          rw [calculate_site_result_fte_none db req.params req.horizon_years _ _ _ s pid x hcalc]
          rfl
        rw [this]
        rfl
      rw [foldl_add_site_fte_none _ hfte]
      exact ⟨fun _ => hnone, fun _ => rfl⟩
    · rw [if_neg hempty]
      constructor
      · intro habs
        exfalso
        have := foldl_add_site_fte_isSome (req.sites.filterMap (site_aggregate db req)) 0
        rw [habs] at this
        exact Bool.noConfusion this
      · intro hall
        exfalso
        exact hempty ((staffing_factors_found_empty_iff db req).mpr hall)

/-- C3 amended witness: the worked example's site carries a nonzero FTE, so
its site-level FTE is present, matching the biconditional. -/
theorem claim_C3_amended_witness :
    site_aggregate exDb exReq 1 = some exR1 ∧
    (exR1.nursing_fte = none ↔
      ¬∃ x ∈ per_program_results exDb exReq 1, ∃ q, x.nursing_fte = some q ∧ q ≠ 0) :=
  ⟨by with_unfolding_all decide,
    claim_C3_amended.2.1 exDb exReq 1 exR1 (by with_unfolding_all decide)⟩

/-- C7 counterexample: with two programs whose unrounded LOS values are
1.0149 and 1.0049, the code emits a site-level LOS of 1.00 (it averages the
per-program values already rounded to 1.01 and 1.00), while rounding the
mean of the unrounded values gives 1.01. -/
theorem claim_C7_counterexample :
    ((calculate_scenario exDbR exReqR).by_site.map (fun r => r.los_effective) = [1]) ∧
    site_los_from_unrounded exDbR exReqR 1 = 101/100 ∧ ((1:ℚ) ≠ 101/100) := by
  have hA : site_aggregate exDbR exReqR 1 = some exAggR := by with_unfolding_all decide
  refine ⟨?_, by with_unfolding_all decide, by norm_num⟩
  rw [calculate_scenario_eq]
  dsimp only
  rw [show exReqR.sites = [1] from rfl, List.filterMap_cons_some hA, List.filterMap_nil]
  with_unfolding_all decide

/-- C7 amended: the site-level `los_effective` is the two-decimal rounding of
the simple mean of the per-program values *after* each has already been
rounded to two decimals — rounding is applied per program before averaging,
then again to the site figure. -/
theorem claim_C7_amended (db : Database) (req : ScenarioRequest) (sid : ℤ)
    (r : SiteResult) (h : site_aggregate db req sid = some r) :
    r.los_effective =
      pyRound ((((per_program_los_unrounded db req sid).map (fun x => pyRound x 2)).sum) /
        ((per_program_los_unrounded db req sid).length : ℚ)) 2 := by
  have hlen : (per_program_results db req sid).length =
      (per_program_los_unrounded db req sid).length := by
    have := congrArg List.length (per_program_los_map db req sid)
    simpa using this
  rw [site_aggregate_los db req sid r h, per_program_los_map, hlen]

/-- C7 amended witness: the two-program scenario instantiated. -/
theorem claim_C7_amended_witness :
    site_aggregate exDbR exReqR 1 = some exAggR ∧
    exAggR.los_effective =
      pyRound ((((per_program_los_unrounded exDbR exReqR 1).map (fun x => pyRound x 2)).sum) /
        ((per_program_los_unrounded exDbR exReqR 1).length : ℚ)) 2 :=
  ⟨by with_unfolding_all decide,
    claim_C7_amended exDbR exReqR 1 exAggR (by with_unfolding_all decide)⟩

/-- C8 counterexample: a seasonality row keyed exactly to (site 0, program 1,
month 1) exists, yet the lookup for (0, 1, 1) returns the hard default 1.0
instead of the row's 1.05, because `if site_id and program_id:` treats the
integer 0 as absent. -/
theorem claim_C8_counterexample :
    get_seasonality_multiplier exDbSeasonZero (some 0) (some 1) 1 = 1 ∧
    exDbSeasonZero.seasonality_monthly.find?
      (fun x => x.site_id == some (0:ℤ) && x.program_id == some (1:ℤ) && x.month == (1:ℤ)) =
        some exSeasonRowZero ∧
    exSeasonRowZero.multiplier = 21/20 ∧ ((1:ℚ) ≠ 21/20) := by
  refine ⟨?_, by with_unfolding_all decide, by with_unfolding_all decide, by norm_num⟩
  with_unfolding_all decide

/-- C8 amended: for nonzero site and program identifiers the lookup resolves
in the order exact site+program row, then program-only row, then global row,
then the hard default 1.0; a zero identifier is treated as absent by the
truthiness guards and skips its tier. -/
theorem claim_C8_amended (db : Database) (s p m : ℤ) (hs : s ≠ 0) (hp : p ≠ 0) :
    (∀ r, db.seasonality_monthly.find?
        (fun x => x.site_id == some s && x.program_id == some p && x.month == m) = some r →
      get_seasonality_multiplier db (some s) (some p) m = r.multiplier) ∧
    (db.seasonality_monthly.find?
        (fun x => x.site_id == some s && x.program_id == some p && x.month == m) = none →
      ∀ r, db.seasonality_monthly.find?
          (fun x => x.site_id.isNone && x.program_id == some p && x.month == m) = some r →
        get_seasonality_multiplier db (some s) (some p) m = r.multiplier) ∧
    (db.seasonality_monthly.find?
        (fun x => x.site_id == some s && x.program_id == some p && x.month == m) = none →
      db.seasonality_monthly.find?
          (fun x => x.site_id.isNone && x.program_id == some p && x.month == m) = none →
      ∀ r, db.seasonality_monthly.find?
          (fun x => x.site_id.isNone && x.program_id.isNone && x.month == m) = some r →
        get_seasonality_multiplier db (some s) (some p) m = r.multiplier) ∧
    (db.seasonality_monthly.find?
        (fun x => x.site_id == some s && x.program_id == some p && x.month == m) = none →
      db.seasonality_monthly.find?
          (fun x => x.site_id.isNone && x.program_id == some p && x.month == m) = none →
      db.seasonality_monthly.find?
          (fun x => x.site_id.isNone && x.program_id.isNone && x.month == m) = none →
      get_seasonality_multiplier db (some s) (some p) m = 1) := by
  have ht1 : intTruthy (some s) = true := by simp [intTruthy, hs]
  have ht2 : intTruthy (some p) = true := by simp [intTruthy, hp]
  unfold get_seasonality_multiplier
  rw [ht1, ht2]
  simp only [Bool.and_self, if_true]
  refine ⟨?_, ?_, ?_, ?_⟩
  · intro r hr
    rw [hr]
  · intro h1 r hr
    rw [h1, hr]
  · intro h1 h2 r hr
    rw [h1, h2, hr]
  · intro h1 h2 h3
    rw [h1, h2, h3]

/-- C8 amended witness: with only a global-tier row, the lookup for a
specific nonzero (site, program, month) returns the global value. -/
theorem claim_C8_amended_witness :
    get_seasonality_multiplier exDbSeasonGlobal (some 5) (some 2) 3 =
      exSeasonRowGlobal.multiplier :=
  (claim_C8_amended exDbSeasonGlobal 5 2 3 (by norm_num) (by norm_num)).2.2.1
    (by with_unfolding_all decide) (by with_unfolding_all decide)
    exSeasonRowGlobal (by with_unfolding_all decide)
